import Mathlib

/-!
Verification of the telefunc dispatch runtime specification.

The repository sources available here are the documentation pages
(getContext, error handling, permissions, event-based telefunctions, RPC
overview) and the server type declarations; the runtime implementation
itself (dispatcher, getContext, Abort, shield) is not among them. The
definitions below therefore model the dispatch core from the specification
text, faithful to its words, and the theorems settle the frozen claims
against that model.
-/

namespace Telefunc

/-- Modelled from the spec: JSON-compatible values carried in requests,
responses, context objects and Abort payloads (the runtime value type is
not among the provided sources). -/
inductive Value where
  | vNull : Value
  | vBool (b : Bool) : Value
  | vNum (n : Int) : Value
  | vStr (s : String) : Value
  | vArr (elems : List Value) : Value
  | vObj (fields : List (String × Value)) : Value

/-- Modelled from the spec: the outcome of running a handler body —
normal return, the distinguished Rejection/Abort signal with an optional
payload, or any other raised failure with its detail (the runtime outcome
classification is not among the provided sources). -/
inductive Outcome where
  | success (v : Value) : Outcome
  | aborted (payload : Option Value) : Outcome
  | failed (detail : String) : Outcome

/-- Modelled from the spec: a handler body as a small program over the
operations the spec talks about — returning, raising Abort (carrying the
statements that would follow, which must never run), raising another
failure, reading the context, awaiting (a suspension point), and
performing an observable side effect (the handler execution model is not
among the provided sources). -/
inductive HandlerM where
  | ret (v : Value) : HandlerM
  | abortStmt (payload : Option Value) (rest : HandlerM) : HandlerM
  | throwErr (detail : String) (rest : HandlerM) : HandlerM
  | getCtx (k : Value → HandlerM) : HandlerM
  | await (k : HandlerM) : HandlerM
  | effect (e : String) (rest : HandlerM) : HandlerM

/-- Modelled from the spec: the error message raised when the context is
read after a suspension point (the getContext implementation is not among
the provided sources; the docs give the wording "Cannot access context
object"). -/
def ctxAccessErrorMsg : String :=
  "[telefunc][Wrong Usage][getContext()] Cannot access context object"

/-- Modelled from the spec: running a handler body with the installed
ContextValue, a flag recording whether a suspension point has been
crossed, and the log of observable side effects so far. Reading the
context before any suspension yields the installed value unchanged;
reading it after a suspension raises the access error, which is an
unexpected failure. Raising Abort or another failure discards the rest of
the body (no further statements run). -/
def runHandler : HandlerM → Value → Bool → List String → Outcome × List String
  | .ret v, _, _, effs => (.success v, effs)
  | .abortStmt p _, _, _, effs => (.aborted p, effs)
  | .throwErr d _, _, _, effs => (.failed d, effs)
  | .getCtx k, ctx, suspended, effs =>
      if suspended then (.failed ctxAccessErrorMsg, effs)
      else runHandler (k ctx) ctx suspended effs
  | .await k, ctx, _, effs => runHandler k ctx true effs
  | .effect e rest, ctx, suspended, effs => runHandler rest ctx suspended (effs ++ [e])

/-- Modelled from the spec: a primitive type predicate of the shield
schema language (string / number / boolean). -/
inductive PrimTy where
  | tString : PrimTy
  | tNumber : PrimTy
  | tBoolean : PrimTy
deriving Repr, DecidableEq

/-- Modelled from the spec: one schema entry — a primitive predicate or a
structural predicate over a mapping of named fields (the shield
implementation is not among the provided sources). -/
inductive SchemaEntry where
  | prim (t : PrimTy) : SchemaEntry
  | struct (fields : List (String × PrimTy)) : SchemaEntry
deriving Repr, DecidableEq

/-- Modelled from the spec: a primitive predicate test on one value. -/
def primCheck : PrimTy → Value → Bool
  | .tString, .vStr _ => true
  | .tNumber, .vNum _ => true
  | .tBoolean, .vBool _ => true
  | _, _ => false

/-- Modelled from the spec: looking up a named field of an object value. -/
def lookupField : String → List (String × Value) → Option Value
  | _, [] => none
  | name, (k, v) :: rest => if k = name then some v else lookupField name rest

/-- Modelled from the spec: testing one schema entry against one
argument value. A structural predicate requires every named field to be
present and to satisfy its primitive predicate. -/
def entryCheck : SchemaEntry → Value → Bool
  | .prim t, v => primCheck t v
  | .struct fields, .vObj obj =>
      fields.all fun p =>
        match lookupField p.1 obj with
        | some v => primCheck p.2 v
        | none => false
  | .struct _, _ => false

/-- Modelled from the spec: the shield check over the ordered argument
list — each schema entry is tested against the corresponding argument in
order, short-circuiting on the first failure; a missing argument fails
its entry. -/
def shieldCheck : List SchemaEntry → List Value → Bool
  | [], _ => true
  | _ :: _, [] => false
  | e :: es, v :: vs => entryCheck e v && shieldCheck es vs

/-- Modelled from the spec: a registered handler — an optional shield
schema attached at registration time and the handler body, a function of
the ordered argument list. -/
structure Registered where
  schema : Option (List SchemaEntry)
  body : List Value → HandlerM

/-- Modelled from the spec: the Call Registry as a mapping from call
identifiers to registered handlers. -/
abbrev Registry := List (String × Registered)

/-- Modelled from the spec: pure registry lookup — returns the handler
registered under the identifier, or none (NotFound). -/
def resolve : Registry → String → Option Registered
  | [], _ => none
  | (k, h) :: rest, id => if k = id then some h else resolve rest id

/-- Modelled from the spec: the request envelope — call identifier (path)
and ordered argument sequence. -/
structure Request where
  path : String
  args : List Value

/-- Modelled from the spec: the response envelope — exactly one of
success value, rejection payload (possibly empty), or the unexpected
failure marker, which carries no internal detail (the caller only ever
sees the generic "Server Error" text). -/
inductive ResponseEnvelope where
  | ret (v : Value) : ResponseEnvelope
  | abort (payload : Option Value) : ResponseEnvelope
  | error : ResponseEnvelope

/-- Modelled from the spec: the dispatcher result — either a response
envelope or the not-found-style answer for an unknown call identifier. -/
inductive DispatchResult where
  | envelope (r : ResponseEnvelope) : DispatchResult
  | unknownCall : DispatchResult

/-- Modelled from the spec: everything observable about one dispatch —
the result sent to the caller, the failure details handed to the Bug
Reporter hook (onBug), and the handler side effects that ran. -/
structure DispatchOut where
  result : DispatchResult
  bugReports : List String
  effects : List String

/-- Modelled from the spec: running a resolved handler — the shield check
runs first when a schema is registered; a failing check yields the
Rejection with no payload and the handler body never runs (zero side
effects); a passing check invokes the body with the original argument
list. -/
def runRegistered (h : Registered) (args : List Value) (ctx : Value) :
    Outcome × List String :=
  match h.schema with
  | some sch =>
      if shieldCheck sch args then runHandler (h.body args) ctx false []
      else (.aborted none, [])
  | none => runHandler (h.body args) ctx false []

/-- Modelled from the spec: converting a handler outcome into the
response envelope and the Bug Reporter invocations — a success becomes
the success variant, an Abort becomes the rejection variant with its
payload and no bug report, and any other failure becomes the generic
error variant with exactly one bug report carrying the failure detail. -/
def respond : Outcome → ResponseEnvelope × List String
  | .success v => (.ret v, [])
  | .aborted p => (.abort p, [])
  | .failed d => (.error, [d])

/-- Modelled from the spec: the dispatcher — resolve the call identifier,
answer unknownCall on a miss (no bug report, no handler execution),
otherwise run the shield and the handler with the installed context and
render the outcome. -/
def dispatch (reg : Registry) (req : Request) (ctx : Value) : DispatchOut :=
  match resolve reg req.path with
  | none => ⟨.unknownCall, [], []⟩
  | some h =>
      let out := runRegistered h req.args ctx
      let env := respond out.1
      ⟨.envelope env.1, env.2, out.2⟩

/-- Iterated suspension points in front of a handler fragment. -/
def awaits : Nat → HandlerM → HandlerM
  | 0, p => p
  | n + 1, p => .await (awaits n p)

/-- Modelled from the spec: the per-request state of one in-flight
dispatch task in the interleaved execution model — the remaining handler
program, the ContextValue installed for that request, the flag recording
whether the task has crossed a suspension point, the outcome once the
task is done, and the log of every ContextValue its context reads
observed. -/
structure Task where
  prog : HandlerM
  ctx : Value
  suspended : Bool
  outcome : Option Outcome
  reads : List Value

/-- Modelled from the spec: one small step of a dispatch task. Each task
carries its own captured ContextValue (strategy (a) of the spec): a
context read while the task is in its synchronous prefix observes that
captured value; a read after a suspension fails; an await flips the
suspension flag and yields control. -/
def stepTask (t : Task) : Task :=
  match t.outcome with
  | some _ => t
  | none =>
      match t.prog with
      | .ret v => { t with outcome := some (.success v) }
      | .abortStmt p _ => { t with outcome := some (.aborted p) }
      | .throwErr d _ => { t with outcome := some (.failed d) }
      | .getCtx k =>
          if t.suspended then { t with outcome := some (.failed ctxAccessErrorMsg) }
          else { t with prog := k t.ctx, reads := t.reads ++ [t.ctx] }
      | .await k => { t with prog := k, suspended := true }
      | .effect _ rest => { t with prog := rest }

/-- Modelled from the spec: two concurrent dispatches as a pair of tasks
driven by an arbitrary cooperative schedule — at each scheduling choice
the designated task takes one small step while the other is left
untouched; the tasks share no state. -/
def runSystem : List Bool → Task × Task → Task × Task
  | [], ts => ts
  | pick :: sched, (t1, t2) =>
      if pick then runSystem sched (stepTask t1, t2)
      else runSystem sched (t1, stepTask t2)

/-- Modelled from the spec: the initial task for a request installing
context value ctx and running handler program p. -/
def initTask (p : HandlerM) (ctx : Value) : Task :=
  { prog := p, ctx := ctx, suspended := false, outcome := none, reads := [] }

/-- Indicator for the success variant of a response envelope. -/
def isSuccessVariant : ResponseEnvelope → Bool
  | .ret _ => true
  | _ => false

/-- Indicator for the rejection variant of a response envelope. -/
def isRejectionVariant : ResponseEnvelope → Bool
  | .abort _ => true
  | _ => false

/-- Indicator for the unexpected-failure variant of a response envelope. -/
def isFailureVariant : ResponseEnvelope → Bool
  | .error => true
  | _ => false

/-- Claim C7: a request whose call identifier is not in the Registry gets
the generic not-found-style answer; the Bug Reporter is not invoked and
no handler effect runs. -/
theorem unknown_call_not_reported :
    ∀ (reg : Registry) (req : Request) (ctx : Value),
      resolve reg req.path = none →
      dispatch reg req ctx = ⟨.unknownCall, [], []⟩ := by
  intro reg req ctx hres
  simp [dispatch, hres]

/-- Witness for C7: dispatching the never-registered identifier
"ghost:call" against a one-entry registry. -/
theorem unknown_call_not_reported_witness :
    dispatch [("math:add", ⟨none, fun _ => .ret .vNull⟩)] ⟨"ghost:call", []⟩ .vNull
      = ⟨.unknownCall, [], []⟩ :=
  unknown_call_not_reported [("math:add", ⟨none, fun _ => .ret .vNull⟩)]
    ⟨"ghost:call", []⟩ .vNull rfl

/-- Claim C1: when the resolved call ends in the Rejection signal the Bug
Reporter receives nothing, and when it ends in any other failure the Bug
Reporter receives exactly that one failure detail while the caller is
given only the generic error variant, which carries no detail. -/
theorem bug_reporter_channel :
    ∀ (reg : Registry) (req : Request) (ctx : Value) (h : Registered),
      resolve reg req.path = some h →
      (∀ p, (runRegistered h req.args ctx).1 = .aborted p →
        (dispatch reg req ctx).bugReports = [] ∧
        (dispatch reg req ctx).result = .envelope (.abort p)) ∧
      (∀ d, (runRegistered h req.args ctx).1 = .failed d →
        (dispatch reg req ctx).bugReports = [d] ∧
        (dispatch reg req ctx).result = .envelope .error) := by
  intro reg req ctx h hres
  constructor
  · intro p hp
    simp [dispatch, hres, hp, respond]
  · intro d hd
    simp [dispatch, hres, hd, respond]

/-- Witness for C1: a handler that raises a non-Abort failure produces
one bug report with the underlying detail and the generic error
envelope. -/
theorem bug_reporter_channel_witness :
    (dispatch [("buggy", ⟨none, fun _ => .throwErr "namee is not defined" (.ret .vNull)⟩)]
        ⟨"buggy", []⟩ .vNull).bugReports = ["namee is not defined"] ∧
    (dispatch [("buggy", ⟨none, fun _ => .throwErr "namee is not defined" (.ret .vNull)⟩)]
        ⟨"buggy", []⟩ .vNull).result = .envelope .error :=
  (bug_reporter_channel
      [("buggy", ⟨none, fun _ => .throwErr "namee is not defined" (.ret .vNull)⟩)]
      ⟨"buggy", []⟩ .vNull
      ⟨none, fun _ => .throwErr "namee is not defined" (.ret .vNull)⟩ rfl).2
    "namee is not defined" rfl

/-- Claim C10: a handler body that completes with a normal return — for
example the policy-denial value notLoggedIn — yields the success variant
carrying that value, with no bug report. -/
theorem normal_return_success :
    ∀ (reg : Registry) (req : Request) (ctx : Value) (h : Registered) (v : Value),
      resolve reg req.path = some h →
      (runRegistered h req.args ctx).1 = .success v →
      (dispatch reg req ctx).result = .envelope (.ret v) ∧
      (dispatch reg req ctx).bugReports = [] := by
  intro reg req ctx h v hres hv
  simp [dispatch, hres, hv, respond]

/-- Witness for C10: a handler returning the denial value
notLoggedIn reaches the caller as the success variant. -/
theorem normal_return_success_witness :
    (dispatch [("onTextChange", ⟨none, fun _ => .ret (.vObj [("notLoggedIn", .vBool true)])⟩)]
        ⟨"onTextChange", []⟩ .vNull).result
      = .envelope (.ret (.vObj [("notLoggedIn", .vBool true)])) ∧
    (dispatch [("onTextChange", ⟨none, fun _ => .ret (.vObj [("notLoggedIn", .vBool true)])⟩)]
        ⟨"onTextChange", []⟩ .vNull).bugReports = [] :=
  normal_return_success
    [("onTextChange", ⟨none, fun _ => .ret (.vObj [("notLoggedIn", .vBool true)])⟩)]
    ⟨"onTextChange", []⟩ .vNull
    ⟨none, fun _ => .ret (.vObj [("notLoggedIn", .vBool true)])⟩
    (.vObj [("notLoggedIn", .vBool true)]) rfl rfl

/-- Claim C3: every response envelope the dispatcher produces has
exactly one populated variant — the success, rejection and failure
indicators sum to one. -/
theorem envelope_exactly_one_variant :
    ∀ (reg : Registry) (req : Request) (ctx : Value) (e : ResponseEnvelope),
      (dispatch reg req ctx).result = .envelope e →
      (isSuccessVariant e).toNat + (isRejectionVariant e).toNat
        + (isFailureVariant e).toNat = 1 := by
  intro reg req ctx e _
  cases e <;> simp [isSuccessVariant, isRejectionVariant, isFailureVariant]

/-- Witness for C3: the envelope of a concrete successful dispatch has
exactly one populated variant. -/
theorem envelope_exactly_one_variant_witness :
    (isSuccessVariant (.ret .vNull)).toNat + (isRejectionVariant (.ret .vNull)).toNat
      + (isFailureVariant (.ret .vNull)).toNat = 1 :=
  envelope_exactly_one_variant [("ping", ⟨none, fun _ => .ret .vNull⟩)]
    ⟨"ping", []⟩ .vNull (.ret .vNull) rfl

/-- Claim C4: raising Abort ends the handler at once — the outcome and
effect log are independent of every statement that follows the raise —
and the dispatcher renders the rejection variant carrying the optional
payload (empty when Abort was raised without one). -/
theorem abort_terminates_and_responds :
    ∀ (p : Option Value) (rest : HandlerM) (ctx : Value) (s : Bool) (effs : List String)
      (reg : Registry) (req : Request) (h : Registered),
      runHandler (.abortStmt p rest) ctx s effs = (.aborted p, effs) ∧
      (resolve reg req.path = some h →
        (runRegistered h req.args ctx).1 = .aborted p →
        (dispatch reg req ctx).result = .envelope (.abort p) ∧
        (dispatch reg req ctx).bugReports = []) := by
  intro p rest ctx s effs reg req h
  constructor
  · rfl
  · intro hres hp
    simp [dispatch, hres, hp, respond]

/-- Witness for C4: a handler raising Abort with the payload
notLoggedIn, followed by an effect that must never run, yields the
rejection envelope with that payload, no bug report. -/
theorem abort_terminates_and_responds_witness :
    (dispatch
        [("getUser",
          ⟨none, fun _ =>
            .abortStmt (some (.vObj [("notLoggedIn", .vBool true)]))
              (.effect "must never run" (.ret .vNull))⟩)]
        ⟨"getUser", []⟩ .vNull).result
      = .envelope (.abort (some (.vObj [("notLoggedIn", .vBool true)]))) ∧
    (dispatch
        [("getUser",
          ⟨none, fun _ =>
            .abortStmt (some (.vObj [("notLoggedIn", .vBool true)]))
              (.effect "must never run" (.ret .vNull))⟩)]
        ⟨"getUser", []⟩ .vNull).bugReports = [] :=
  (abort_terminates_and_responds (some (.vObj [("notLoggedIn", .vBool true)]))
      (.effect "must never run" (.ret .vNull)) .vNull false []
      [("getUser",
        ⟨none, fun _ =>
          .abortStmt (some (.vObj [("notLoggedIn", .vBool true)]))
            (.effect "must never run" (.ret .vNull))⟩)]
      ⟨"getUser", []⟩
      ⟨none, fun _ =>
        .abortStmt (some (.vObj [("notLoggedIn", .vBool true)]))
          (.effect "must never run" (.ret .vNull))⟩).2 rfl rfl

/-- Claim C5: the shield runs before the handler body — a first failing
entry makes the whole check fail whatever comes after it, a failing check
yields the payload-free Rejection with zero handler side effects, and a
passing check invokes the body with the original, unmodified argument
list. -/
theorem shield_semantics :
    ∀ (sch : List SchemaEntry) (body : List Value → HandlerM) (args : List Value)
      (ctx : Value) (e : SchemaEntry) (es : List SchemaEntry) (v : Value) (vs : List Value),
      (entryCheck e v = false → shieldCheck (e :: es) (v :: vs) = false) ∧
      (shieldCheck sch args = false →
        runRegistered ⟨some sch, body⟩ args ctx = (.aborted none, [])) ∧
      (shieldCheck sch args = true →
        runRegistered ⟨some sch, body⟩ args ctx = runHandler (body args) ctx false []) := by
  intro sch body args ctx e es v vs
  refine ⟨?_, ?_, ?_⟩
  · intro hfail
    simp [shieldCheck, hfail]
  · intro hfail
    simp [runRegistered, hfail]
  · intro hpass
    simp [runRegistered, hpass]

/-- Witness for C5: a string schema rejects a numeric argument with the
payload-free Rejection and no handler effect, short-circuiting on that
first entry. -/
theorem shield_semantics_witness :
    shieldCheck [.prim .tString, .prim .tNumber] [.vNum 1, .vStr "x"] = false ∧
    runRegistered
        ⟨some [.prim .tString], fun _ => .effect "insert row" (.ret .vNull)⟩
        [.vNum 1] .vNull
      = (.aborted none, []) :=
  ⟨(shield_semantics [.prim .tString] (fun _ => .effect "insert row" (.ret .vNull))
      [.vNum 1] .vNull (.prim .tString) [.prim .tNumber] (.vNum 1) [.vStr "x"]).1 rfl,
   (shield_semantics [.prim .tString] (fun _ => .effect "insert row" (.ret .vNull))
      [.vNum 1] .vNull (.prim .tString) [.prim .tNumber] (.vNum 1) [.vStr "x"]).2.1 rfl⟩

/-- Claim C6: registry resolution is a pure lookup — with unique keys,
every registered pair is found, and an identifier absent from the keys
resolves to none (NotFound), never anything else. -/
theorem resolve_lookup :
    ∀ (reg : Registry) (id : String) (h : Registered),
      ((reg.map Prod.fst).Nodup → (id, h) ∈ reg → resolve reg id = some h) ∧
      (id ∉ reg.map Prod.fst → resolve reg id = none) := by
  intro reg id h
  induction reg with
  | nil =>
      refine ⟨?_, ?_⟩
      · intro _ hmem
        cases hmem
      · intro _
        rfl
  | cons hd tl ih =>
      obtain ⟨k, g⟩ := hd
      refine ⟨?_, ?_⟩
      · intro hnodup hmem
        rw [List.map_cons, List.nodup_cons] at hnodup
        rcases List.mem_cons.mp hmem with heq | hmem
        · rcases Prod.mk.injEq .. ▸ heq with ⟨hk, hg⟩
          subst hk
          subst hg
          simp [resolve]
        · have hkey : id ∈ tl.map Prod.fst :=
            List.mem_map_of_mem Prod.fst hmem
          have hne : k ≠ id := fun hkid => hnodup.1 (hkid ▸ hkey)
          simp only [resolve, if_neg hne]
          exact ih.1 hnodup.2 hmem
      · intro hnot
        rw [List.map_cons] at hnot
        have hne : k ≠ id := fun hkid => hnot (hkid ▸ List.mem_cons_self k _)
        simp only [resolve, if_neg hne]
        exact ih.2 fun hmem => hnot (List.mem_cons_of_mem k hmem)

/-- Witness for C6: in a two-entry registry with distinct keys, the
second registered pair is found and a missing identifier yields none. -/
theorem resolve_lookup_witness :
    resolve [("a", ⟨none, fun _ => .ret .vNull⟩), ("b", ⟨none, fun _ => .ret (.vNum 1)⟩)] "b"
      = some ⟨none, fun _ => .ret (.vNum 1)⟩ ∧
    resolve [("a", ⟨none, fun _ => .ret .vNull⟩), ("b", ⟨none, fun _ => .ret (.vNum 1)⟩)] "c"
      = none :=
  ⟨(resolve_lookup
      [("a", ⟨none, fun _ => .ret .vNull⟩), ("b", ⟨none, fun _ => .ret (.vNum 1)⟩)]
      "b" ⟨none, fun _ => .ret (.vNum 1)⟩).1 (by simp)
      (List.mem_cons_of_mem _ (List.mem_cons_self _ _)),
   (resolve_lookup
      [("a", ⟨none, fun _ => .ret .vNull⟩), ("b", ⟨none, fun _ => .ret (.vNum 1)⟩)]
      "c" ⟨none, fun _ => .ret (.vNum 1)⟩).2 (by simp)⟩

/-- Claim C8: with add registered at "math:add", the request
with args [2, 3] yields the success envelope carrying 5, for any
installed context. -/
theorem math_add_end_to_end :
    ∀ ctx : Value,
      dispatch
        [("math:add",
          ⟨none, fun args =>
            match args with
            | [.vNum a, .vNum b] => .ret (.vNum (a + b))
            | _ => .throwErr "invalid arguments" (.ret .vNull)⟩)]
        ⟨"math:add", [.vNum 2, .vNum 3]⟩ ctx
      = ⟨.envelope (.ret (.vNum 5)), [], []⟩ := by
  intro ctx
  rfl

/-- Once a handler is past a suspension point, further suspensions do not
change what remains to run. -/
lemma runHandler_awaits_suspended (n : Nat) (p : HandlerM) (ctx : Value)
    (effs : List String) :
    runHandler (awaits n p) ctx true effs = runHandler p ctx true effs := by
  induction n with
  | zero => rfl
  | succ m ih => simp [awaits, runHandler, ih]

/-- Claim C2: a context read in the synchronous prefix hands the
continuation the installed ContextValue unchanged, and a context read
behind any positive number of suspension points fails with the context
access error, deterministically. -/
theorem getContext_window :
    ∀ (k : Value → HandlerM) (ctx : Value) (effs : List String) (n : Nat),
      runHandler (.getCtx k) ctx false effs = runHandler (k ctx) ctx false effs ∧
      (1 ≤ n →
        runHandler (awaits n (.getCtx k)) ctx false effs
          = (.failed ctxAccessErrorMsg, effs)) := by
  intro k ctx effs n
  constructor
  · simp [runHandler]
  · intro hn
    obtain ⟨m, rfl⟩ : ∃ m, n = m + 1 := ⟨n - 1, (Nat.succ_pred_eq_of_pos hn).symm⟩
    simp [awaits, runHandler, runHandler_awaits_suspended]

/-- Witness for C2: reading the context behind two suspension points
fails with the access error. -/
theorem getContext_window_witness :
    runHandler (awaits 2 (.getCtx fun v => .ret v)) (.vNum 7) false []
      = (.failed ctxAccessErrorMsg, []) :=
  (getContext_window (fun v => .ret v) (.vNum 7) [] 2).2 (by decide)

/-- A task step never changes the ContextValue captured by the task. -/
lemma stepTask_ctx (t : Task) : (stepTask t).ctx = t.ctx := by
  unfold stepTask
  cases t.outcome with
  | some _ => rfl
  | none =>
      cases t.prog with
      | ret v => rfl
      | abortStmt p rest => rfl
      | throwErr d rest => rfl
      | getCtx k => by_cases hs : t.suspended <;> simp [hs]
      | await k => rfl
      | effect e rest => rfl

/-- A task step only ever appends the ContextValue captured by the task to
its log of observed context reads. -/
lemma stepTask_reads_inv (t : Task) (c : Value) (hc : t.ctx = c)
    (hr : ∀ v ∈ t.reads, v = c) : ∀ v ∈ (stepTask t).reads, v = c := by
  unfold stepTask
  cases t.outcome with
  | some _ => exact hr
  | none =>
      cases t.prog with
      | ret v => exact hr
      | abortStmt p rest => exact hr
      | throwErr d rest => exact hr
      | getCtx k =>
          by_cases hs : t.suspended
          · simp only [hs, if_true]
            exact hr
          · simp only [hs, if_false]
            intro v hv
            rcases List.mem_append.mp hv with hv | hv
            · exact hr v hv
            · rw [List.mem_singleton.mp hv, hc]
      | await k => exact hr
      | effect e rest => exact hr

/-- Every scheduling of the two-task system preserves, for each task, its
captured ContextValue and the fact that all its context reads observed
only that value. -/
lemma runSystem_inv :
    ∀ (sched : List Bool) (t1 t2 : Task) (c1 c2 : Value),
      t1.ctx = c1 → (∀ v ∈ t1.reads, v = c1) →
      t2.ctx = c2 → (∀ v ∈ t2.reads, v = c2) →
      (∀ v ∈ (runSystem sched (t1, t2)).1.reads, v = c1) ∧
      (∀ v ∈ (runSystem sched (t1, t2)).2.reads, v = c2) := by
  intro sched
  induction sched with
  | nil =>
      intro t1 t2 c1 c2 _ hr1 _ hr2
      exact ⟨hr1, hr2⟩
  | cons pick rest ih =>
      intro t1 t2 c1 c2 h1 hr1 h2 hr2
      cases pick with
      | true =>
          simp only [runSystem, if_true]
          exact ih (stepTask t1) t2 c1 c2 (h1 ▸ stepTask_ctx t1)
            (stepTask_reads_inv t1 c1 h1 hr1) h2 hr2
      | false =>
          simp only [runSystem, Bool.false_eq_true, if_false]
          exact ih t1 (stepTask t2) c1 c2 h1 hr1 (h2 ▸ stepTask_ctx t2)
            (stepTask_reads_inv t2 c2 h2 hr2)

/-- Claim C9: two concurrent dispatches, each installing its own
ContextValue, never observe the ContextValue of the other — under every
cooperative interleaving, every context read of the first task sees only
its own value and likewise for the second. -/
theorem context_isolation :
    ∀ (p1 p2 : HandlerM) (c1 c2 : Value) (sched : List Bool),
      (∀ v ∈ (runSystem sched (initTask p1 c1, initTask p2 c2)).1.reads, v = c1) ∧
      (∀ v ∈ (runSystem sched (initTask p1 c1, initTask p2 c2)).2.reads, v = c2) := by
  intro p1 p2 c1 c2 sched
  refine runSystem_inv sched (initTask p1 c1) (initTask p2 c2) c1 c2 rfl ?_ rfl ?_
  · intro v hv
    cases hv
  · intro v hv
    cases hv

/-- Witness for C9: in a concrete interleaving of two context-reading
tasks, the value the first task observed is its own installed context. -/
theorem context_isolation_witness :
    Value.vNum 1 = Value.vNum 1 :=
  (context_isolation (.getCtx .ret) (.getCtx .ret) (.vNum 1) (.vNum 2)
      [true, false]).1 (.vNum 1)
    (by simp [runSystem, stepTask, initTask])

end Telefunc
